import Mathlib

/-!
Verification of the tradesense-bot-backend core: a shallow embedding in Lean 4
of the trading engine (src/services/trading/tradingEngine.ts, identical to
src/unnamed/part_004), the AI analysis service in its two variants
(src/services/ai/aiService.ts and the legacy variant src/unnamed/part_006 /
part_007), the database helpers they use (src/services/db/dbService.ts,
src/unnamed/part_005), and the AUTO-direction trade flow given in
src/tests/huggingface-test.ts.

External effects (database reads/writes, chain RPC, inference provider calls,
clocks, randomness) are modelled by explicit environment records carrying the
outcome of each effect; stores are lists of records threaded through the
functions; a thrown JS exception is an Except.error carrying the message.
-/

namespace TradeSense

/-! ## JavaScript primitive models -/

/-- ASCII uppercase of one character: model of the effect of JS
String.prototype.toUpperCase on the ASCII range (token symbols and command
words in this codebase are ASCII). -/
def upChar (c : Char) : Char :=
  if 97 ≤ c.toNat ∧ c.toNat ≤ 122 then Char.ofNat (c.toNat - 32) else c

/-- ASCII uppercase of a string, the model of s.toUpperCase(). -/
def upStr (s : String) : String :=
  String.mk (s.data.map upChar)

/-- Numeric value of a list of decimal digit characters. -/
def digitsToNat (ds : List Char) : Nat :=
  ds.foldl (fun a c => a * 10 + (c.toNat - 48)) 0

/-- Shallow model of JS parseFloat restricted to plain decimal literals with an
optional sign and fraction part (the shapes relevant to trade amounts):
none models NaN, and like parseFloat a longest valid numeric prefix of the
string is used, trailing junk ignored. -/
def parseFloatJs (s : String) : Option Rat :=
  let go : List Char → Option Rat := fun cs =>
    let intDs := cs.takeWhile Char.isDigit
    let rest := cs.dropWhile Char.isDigit
    match rest with
    | '.' :: rest2 =>
      let fracDs := rest2.takeWhile Char.isDigit
      if intDs.isEmpty && fracDs.isEmpty then none
      else some ((digitsToNat intDs : Rat) +
                 (digitsToNat fracDs : Rat) / ((10 : Rat) ^ fracDs.length))
    | _ => if intDs.isEmpty then none else some (digitsToNat intDs : Rat)
  match s.data with
  | '-' :: cs => (go cs).map (fun q => -q)
  | '+' :: cs => go cs
  | cs => go cs

/-- Character-level split on a separator, keeping empty segments, the
behavior of JS String.prototype.split with a one-character separator. -/
def splitChars (sep : Char) : List Char → List (List Char)
  | [] => [[]]
  | c :: cs =>
    let r := splitChars sep cs
    if c = sep then [] :: r
    else
      match r with
      | [] => [[c]]
      | g :: gs => (c :: g) :: gs

/-- Model of messageText.split(' ') in JS. -/
def splitOnSpaceJs (s : String) : List String :=
  (splitChars ' ' s.data).map String.mk

/-- Model of the JS catch-to-null idiom p.catch(() => null) used by the
comprehensive analyzer fan-out. -/
def jsCatchNull {α : Type} : Except String α → Option α
  | .ok a => some a
  | .error _ => none

/-! ## Trade records and the database helpers (src/services/db/dbService.ts,
src/unnamed/part_005)

A TradeRecord row of the trades table; created_at / updated_at timestamps are
not relevant to any claim and are omitted. The id is assigned by the store;
we model it as the insertion index. -/

inductive TradeStatus
  | PENDING
  | COMPLETED
  | FAILED
deriving DecidableEq, Repr

structure TradeRecord where
  id : Nat
  user_id : Int
  token_symbol : String
  token_address : String
  blockchain : String
  amount : Rat
  price : Rat
  trade_type : String
  status : TradeStatus
  tx_hash : Option String
  error_message : Option String
deriving DecidableEq, Repr

/-- dbService.recordTrade: insert a trade row and return its id. The ok flag
is the environment's answer to whether the insert succeeds; on failure the
function throws and the store is unchanged. -/
def recordTrade (ok : Bool) (store : List TradeRecord)
    (user_id : Int) (token_symbol token_address blockchain : String)
    (amount price : Rat) (trade_type : String) (status : TradeStatus)
    (tx_hash error_message : Option String) :
    Except String (Nat × List TradeRecord) :=
  if ok then
    let id := store.length
    .ok (id, store ++ [{ id := id, user_id := user_id, token_symbol := token_symbol,
                         token_address := token_address, blockchain := blockchain,
                         amount := amount, price := price, trade_type := trade_type,
                         status := status, tx_hash := tx_hash,
                         error_message := error_message }])
  else .error "Failed to record trade"

/-- dbService.updateTradeStatus: update status, tx_hash and error_message of
the row with the given id. On failure the store is unchanged and it throws. -/
def updateTradeStatus (ok : Bool) (store : List TradeRecord)
    (tradeId : Nat) (status : TradeStatus)
    (txHash errorMessage : Option String) :
    Except String (List TradeRecord) :=
  if ok then
    .ok (store.map fun r =>
      if r.id = tradeId then
        { r with status := status, tx_hash := txHash, error_message := errorMessage }
      else r)
  else .error "Failed to update trade status"

/-! ## tradingEngine.executeTrade (src/services/trading/tradingEngine.ts lines
215-294, identical in src/unnamed/part_004) -/

structure TradeData where
  userId : Int
  blockchain : String
  tokenSymbol : String
  tokenAddress : String
  amount : Rat
  tradeType : String
  walletAddress : String
  privateKey : String
deriving DecidableEq, Repr

/-- Environment for one executeTrade call: outcome of the PENDING insert, of
the chain adapter's executeTransaction (ok txHash or thrown error), of the
COMPLETED status update, and of the FAILED insert attempted in the catch
block. -/
structure TradeEnv where
  recordOk : Bool
  chainResult : Except String String
  updateOk : Bool
  failRecordOk : Bool
deriving Repr

structure TradeOk where
  trade_id : Nat
  tx_hash : String
deriving DecidableEq, Repr

/-- The catch block of executeTrade: when tradeData.userId is truthy, a NEW
trade row with status FAILED and the error message is inserted (a failure of
that insert is swallowed), then the original error is rethrown. -/
def executeTradeCatch (env : TradeEnv) (td : TradeData)
    (store : List TradeRecord) (e : String) :
    Except String TradeOk × List TradeRecord :=
  if td.userId ≠ 0 then
    match recordTrade env.failRecordOk store td.userId td.tokenSymbol td.tokenAddress
        td.blockchain td.amount 0 td.tradeType .FAILED none (some e) with
    | .ok (_, store2) => (.error e, store2)
    | .error _ => (.error e, store)
  else (.error e, store)

/-- tradingEngine.executeTrade: insert a PENDING trade row, invoke the
selected chain adapter's executeTransaction, and on success update that row
to COMPLETED with the transaction hash; any thrown error reaches the catch
block. -/
def executeTrade (env : TradeEnv) (td : TradeData) (store : List TradeRecord) :
    Except String TradeOk × List TradeRecord :=
  match recordTrade env.recordOk store td.userId td.tokenSymbol td.tokenAddress
      td.blockchain td.amount 0 td.tradeType .PENDING none none with
  | .error e => executeTradeCatch env td store e
  | .ok (tradeId, store1) =>
    match env.chainResult with
    | .error e => executeTradeCatch env td store1 e
    | .ok txHash =>
      match updateTradeStatus env.updateOk store1 tradeId .COMPLETED (some txHash) none with
      | .error e => executeTradeCatch env td store1 e
      | .ok store2 => (.ok { trade_id := tradeId, tx_hash := txHash }, store2)

/-! ## parseTradingCommand, simulateTrade and handleTradeCommand
(src/unnamed/part_004 lines 363-574) -/

structure TradeCmd where
  symbol : String
  direction : String
  amount : Rat
deriving DecidableEq, Repr

/-- parseTradingCommand (src/unnamed/part_004 lines 363-398): the command text
is split on single spaces; fewer than three parts is rejected; the direction
token is uppercased and must be BUY or SELL; the amount defaults to 0.01 and,
when a fourth part is present, must parse to a positive number. -/
def parseTradingCommand (messageText : String) : Except String TradeCmd :=
  let parts := splitOnSpaceJs messageText
  if parts.length < 3 then
    .error "Invalid trade command. Usage: /trade [symbol] [BUY|SELL] [amount]"
  else
    let symbol := upStr (parts.getD 1 "")
    let direction := upStr (parts.getD 2 "")
    if direction ≠ "BUY" ∧ direction ≠ "SELL" then
      .error "Trade direction must be either BUY or SELL"
    else if 4 ≤ parts.length then
      match parseFloatJs (parts.getD 3 "") with
      | none => .error "Trade amount must be a positive number"
      | some a =>
        if a ≤ 0 then .error "Trade amount must be a positive number"
        else .ok { symbol := symbol, direction := direction, amount := a }
    else
      .ok { symbol := symbol, direction := direction, amount := (1 : Rat) / 100 }

/-- Environment for one simulateTrade call: the outcome of getTokenPrice (ok
price or thrown error), the random hex digits appended after 0x in the fake
transaction hash and fake token address, and whether the COMPLETED insert into
the trades store succeeds. -/
structure SimEnv where
  priceResult : Except String Rat
  txRand : String
  tokenRand : String
  recordOk : Bool
deriving Repr

structure SimResult where
  txHash : String
  price : Rat
  status : TradeStatus
  error : Option String
deriving DecidableEq, Repr

structure SimTradeData where
  symbol : String
  direction : String
  amount : Rat
  userId : Int
  walletAddress : String
  blockchain : String
deriving DecidableEq, Repr

/-- simulateTrade (src/unnamed/part_004 lines 436-516): fetch a price, build a
fake transaction hash, best-effort record a COMPLETED trade (a store failure
is swallowed), and return COMPLETED; if the price fetch throws, return a
FAILED result with empty hash, price 0 and the error message. It never
throws. -/
def simulateTrade (env : SimEnv) (td : SimTradeData) (store : List TradeRecord) :
    SimResult × List TradeRecord :=
  match env.priceResult with
  | .error e =>
    ({ txHash := "", price := 0, status := .FAILED, error := some e }, store)
  | .ok tokenPrice =>
    let txHash := "0x" ++ env.txRand
    let store2 :=
      match recordTrade env.recordOk store td.userId td.symbol
          ("0x" ++ env.tokenRand) td.blockchain td.amount tokenPrice
          td.direction .COMPLETED (some txHash) none with
      | .ok (_, s) => s
      | .error _ => store
    ({ txHash := txHash, price := tokenPrice, status := .COMPLETED, error := none }, store2)

structure UserData where
  userId : Int
  walletAddress : String
  blockchain : String
deriving DecidableEq, Repr

structure HandleResult where
  success : Bool
  message : String
  txHash : Option String
  price : Option Rat
deriving DecidableEq, Repr

/-- handleTradeCommand (src/unnamed/part_004 lines 522-574): parse the
command, run simulateTrade, and build the user-facing outcome; a parse error
is caught and returned as a failed outcome without touching the store. The
final Bool reports whether the execution path (simulateTrade) was invoked.
Number formatting inside messages is simplified to toString. -/
def handleTradeCommand (env : SimEnv) (messageText : String) (u : UserData)
    (store : List TradeRecord) : HandleResult × List TradeRecord × Bool :=
  match parseTradingCommand messageText with
  | .error e =>
    ({ success := false, message := "❌ Trade command error: " ++ e,
       txHash := none, price := none }, store, false)
  | .ok cmd =>
    let (result, store2) := simulateTrade env
      { symbol := cmd.symbol, direction := cmd.direction, amount := cmd.amount,
        userId := u.userId, walletAddress := u.walletAddress,
        blockchain := u.blockchain } store
    if result.status = .COMPLETED then
      ({ success := true,
         message := "✅ Successfully " ++
           (if cmd.direction = "BUY" then "bought" else "sold") ++ " " ++
           toString cmd.amount ++ " " ++ cmd.symbol ++ " at $" ++
           toString result.price ++ ".",
         txHash := some result.txHash, price := some result.price }, store2, true)
    else
      ({ success := false,
         message := "❌ Trade failed: " ++ (result.error.getD "Unknown error"),
         txHash := none, price := none }, store2, true)

/-! ## AUTO-direction trade flow (src/tests/huggingface-test.ts section 5)

The repository's integration guide src/tests/huggingface-test.ts carries the
AUTO-capable versions of parseTradingCommand and handleTradeCommand verbatim;
they are embedded here with an Auto suffix to distinguish them from the
src/unnamed/part_004 versions above. -/

/-- The explicit-AUTO amount branch of parseTradingCommandAuto: AUTO written
as the direction token requires a fourth part holding a positive amount. -/
def parseAutoAmount (parts : List String) (symbol : String) : Except String TradeCmd :=
  if parts.length < 4 then
    .error "Please specify an amount when using AUTO trade"
  else
    match parseFloatJs (parts.getD 3 "") with
    | none => .error "Trade amount must be a positive number"
    | some a =>
      if a ≤ 0 then .error "Trade amount must be a positive number"
      else .ok { symbol := symbol, direction := "AUTO", amount := a }

/-- parseTradingCommand from src/tests/huggingface-test.ts: BUY and SELL as
before (default amount 0.01); a positive numeric third part means direction
AUTO with that amount; an explicit AUTO token requires an amount; anything
else is rejected. -/
def parseTradingCommandAuto (messageText : String) : Except String TradeCmd :=
  let parts := splitOnSpaceJs messageText
  if parts.length < 3 then
    .error "Invalid trade command. Usage: /trade <symbol> <BUY|SELL|AUTO> [amount]"
  else
    let symbol := upStr (parts.getD 1 "")
    let directionInput := upStr (parts.getD 2 "")
    if directionInput = "BUY" ∨ directionInput = "SELL" then
      if 4 ≤ parts.length then
        match parseFloatJs (parts.getD 3 "") with
        | none => .error "Trade amount must be a positive number"
        | some a =>
          if a ≤ 0 then .error "Trade amount must be a positive number"
          else .ok { symbol := symbol, direction := directionInput, amount := a }
      else .ok { symbol := symbol, direction := directionInput, amount := (1 : Rat) / 100 }
    else
      match parseFloatJs (parts.getD 2 "") with
      | some possibleAmount =>
        if 0 < possibleAmount then
          .ok { symbol := symbol, direction := "AUTO", amount := possibleAmount }
        else if directionInput = "AUTO" then parseAutoAmount parts symbol
        else .error "Trade direction must be BUY, SELL, or AUTO"
      | none =>
        if directionInput = "AUTO" then parseAutoAmount parts symbol
        else .error "Trade direction must be BUY, SELL, or AUTO"

/-- Environment for handleTradeCommandAuto: the outcome of
aiService.getTradingSignal(symbol) as the raw signal direction string, plus
the simulateTrade environment. -/
structure AutoEnv where
  signal : Except String String
  sim : SimEnv

/-- The execution tail of handleTradeCommandAuto: run simulateTrade and build
the outcome messages; aiChosen marks the parsed direction having been AUTO,
which appends the decided-by-AI note on success. -/
def runSimulatedTrade (env : SimEnv) (symbol direction : String) (amount : Rat)
    (u : UserData) (store : List TradeRecord) (aiChosen : Bool) :
    HandleResult × List TradeRecord × Bool :=
  let (result, store2) := simulateTrade env
    { symbol := symbol, direction := direction, amount := amount,
      userId := u.userId, walletAddress := u.walletAddress,
      blockchain := u.blockchain } store
  if result.status = .COMPLETED then
    ({ success := true,
       message := "✅ Successfully " ++
         (if direction = "BUY" then "bought" else "sold") ++ " " ++
         toString amount ++ " " ++ symbol ++ " at $" ++ toString result.price ++ "." ++
         (if aiChosen then " (Action decided by AI)" else ""),
       txHash := some result.txHash, price := some result.price }, store2, true)
  else
    ({ success := false,
       message := "❌ Trade failed: " ++ (result.error.getD "Unknown error"),
       txHash := none, price := none }, store2, true)

/-- handleTradeCommand from src/tests/huggingface-test.ts: on a parsed AUTO
direction, consult the signal component; a HOLD signal returns a declined
outcome with no execution; a BUY or SELL signal becomes the direction; a
thrown signal error is caught by the outer handler. The final Bool reports
whether the execution path (simulateTrade) was invoked. -/
def handleTradeCommandAuto (env : AutoEnv) (messageText : String) (u : UserData)
    (store : List TradeRecord) : HandleResult × List TradeRecord × Bool :=
  match parseTradingCommandAuto messageText with
  | .error e =>
    ({ success := false, message := "❌ Trade command error: " ++ e,
       txHash := none, price := none }, store, false)
  | .ok cmd =>
    if cmd.direction = "AUTO" then
      match env.signal with
      | .error e =>
        ({ success := false, message := "❌ Trade command error: " ++ e,
           txHash := none, price := none }, store, false)
      | .ok sig =>
        if sig = "HOLD" then
          ({ success := false,
             message := "🤖 AI suggests to *HOLD* " ++ cmd.symbol ++ ". No trade executed.",
             txHash := none, price := none }, store, false)
        else runSimulatedTrade env.sim cmd.symbol sig cmd.amount u store true
    else runSimulatedTrade env.sim cmd.symbol cmd.direction cmd.amount u store false

/-! ## Analysis records and store reads (src/services/db/dbService.ts,
src/unnamed/part_005) -/

/-- The latest record of a list by a created_at projection: the record with
the greatest created_at (first one wins ties), modelling the store query
order by created_at descending, limit 1. -/
def latestBy {α : Type} (created : α → Nat) (l : List α) : Option α :=
  l.foldl (fun acc r =>
    match acc with
    | none => some r
    | some b => if created b < created r then some r else some b) none

structure SentimentRecord where
  token_symbol : String
  timeframe : String
  sentiment_score : Rat
  sources : List String
  created_at : Nat
deriving DecidableEq, Repr

/-- dbService.getLatestSentiment: latest sentiment row for (symbol,
timeframe). -/
def getLatestSentiment (store : List SentimentRecord) (sym tf : String) :
    Option SentimentRecord :=
  latestBy (fun r => r.created_at)
    (store.filter fun r => r.token_symbol == sym && r.timeframe == tf)

structure PredictionRecord where
  token_symbol : String
  timeframe : String
  current_price : Rat
  predicted_price : Rat
  percentage_change : Rat
  confidence : Rat
  created_at : Nat
deriving DecidableEq, Repr

/-- dbService.getLatestPrediction: latest prediction row for (symbol,
timeframe). -/
def getLatestPrediction (store : List PredictionRecord) (sym tf : String) :
    Option PredictionRecord :=
  latestBy (fun r => r.created_at)
    (store.filter fun r => r.token_symbol == sym && r.timeframe == tf)

structure SignalRecord where
  token_symbol : String
  signal : String
  strength : Rat
  reasons : List String
  analysis : Option String
  created_at : Nat
deriving DecidableEq, Repr

/-- dbService.getLatestTradeSignal: latest signal row for the symbol (signals
carry no timeframe). -/
def getLatestTradeSignal (store : List SignalRecord) (sym : String) :
    Option SignalRecord :=
  latestBy (fun r => r.created_at) (store.filter fun r => r.token_symbol == sym)

/-! ## aiService, current variant (src/services/ai/aiService.ts)

Cache durations in milliseconds, from aiService.ts lines 16-18. -/

def SENTIMENT_CACHE_DURATION : Nat := 3600000

def PREDICTION_CACHE_DURATION : Nat := 1800000

def SIGNAL_CACHE_DURATION : Nat := 900000

structure SentimentResult where
  score : Rat
  sources : List String
  cached : Bool
  timestamp : Nat
deriving DecidableEq, Repr

/-- Environment of one getSentimentAnalysis call: the clock, the joint
outcome of the provider request and its shape validation (ok (score, sources)
or the thrown error message), and whether the cache write succeeds. -/
structure SentimentEnv where
  now : Nat
  provider : Except String (Rat × List String)
  storeOk : Bool

/-- AIService.getSentimentAnalysis (src/services/ai/aiService.ts lines
70-187): uppercase the symbol; unless forceRefresh, a latest record younger
than the TTL is returned as cached; otherwise the provider is called, the
result returned fresh, and the cache write failure swallowed. The Bool of
the returned triple reports whether the provider was invoked. -/
def getSentimentAnalysis (env : SentimentEnv) (store : List SentimentRecord)
    (tokenSymbol timeframe : String) (forceRefresh : Bool) :
    Except String SentimentResult × List SentimentRecord × Bool :=
  let sym := upStr tokenSymbol
  let cacheHit : Option SentimentRecord :=
    if forceRefresh then none
    else match getLatestSentiment store sym timeframe with
      | some c => if env.now - c.created_at < SENTIMENT_CACHE_DURATION then some c else none
      | none => none
  match cacheHit with
  | some c =>
    (.ok { score := c.sentiment_score, sources := c.sources, cached := true,
           timestamp := c.created_at }, store, false)
  | none =>
    match env.provider with
    | .error e =>
      (.error ("Failed to get sentiment analysis for " ++ sym ++ ": " ++ e), store, true)
    | .ok (score, sources) =>
      let newStore :=
        if env.storeOk then
          store ++ [{ token_symbol := sym, timeframe := timeframe,
                      sentiment_score := score, sources := sources,
                      created_at := env.now }]
        else store
      (.ok { score := score, sources := sources, cached := false,
             timestamp := env.now }, newStore, true)

structure PredictionResult where
  currentPrice : Rat
  predictedPrice : Rat
  percentageChange : Rat
  confidence : Rat
  timestamp : Nat
deriving DecidableEq, Repr

/-- Raw prediction model response: each field is some value iff the JSON
field is present and numeric. -/
structure PredResp where
  currentPrice : Option Rat
  predictedPrice : Option Rat
  percentageChange : Option Rat
  confidence : Option Rat
deriving DecidableEq, Repr

structure PredictionEnv where
  now : Nat
  provider : Except String PredResp
  storeOk : Bool

/-- AIService.getPricePrediction (src/services/ai/aiService.ts lines
195-317): cache as for sentiment (no forceRefresh parameter exists); the
provider response must have the four numeric fields or the call fails; the
cache write failure is swallowed. -/
def getPricePrediction (env : PredictionEnv) (store : List PredictionRecord)
    (tokenSymbol timeHorizon : String) :
    Except String PredictionResult × List PredictionRecord × Bool :=
  let sym := upStr tokenSymbol
  let cacheHit : Option PredictionRecord :=
    match getLatestPrediction store sym timeHorizon with
    | some c => if env.now - c.created_at < PREDICTION_CACHE_DURATION then some c else none
    | none => none
  match cacheHit with
  | some c =>
    (.ok { currentPrice := c.current_price, predictedPrice := c.predicted_price,
           percentageChange := c.percentage_change, confidence := c.confidence,
           timestamp := c.created_at }, store, false)
  | none =>
    match env.provider with
    | .error e =>
      (.error ("Failed to get price prediction for " ++ sym ++ ": " ++ e), store, true)
    | .ok r =>
      match r.currentPrice, r.predictedPrice, r.percentageChange, r.confidence with
      | some cp, some pp, some pc, some cf =>
        let newStore :=
          if env.storeOk then
            store ++ [{ token_symbol := sym, timeframe := timeHorizon,
                        current_price := cp, predicted_price := pp,
                        percentage_change := pc, confidence := cf,
                        created_at := env.now }]
          else store
        (.ok { currentPrice := cp, predictedPrice := pp, percentageChange := pc,
               confidence := cf, timestamp := env.now }, newStore, true)
      | _, _, _, _ =>
        (.error ("Failed to get price prediction for " ++ sym ++
                 ": Invalid response structure from price prediction model"), store, true)

structure SignalResultA where
  token : String
  signal : String
  strength : Rat
  reasons : List String
  analysis : Option String
  timestamp : Nat
deriving DecidableEq, Repr

/-- Raw trading-signal model response: signal is some string iff the field is
present and a string, strength is some value iff numeric, reasons is some
list iff an array of strings. -/
structure SignalResp where
  signal : Option String
  strength : Option Rat
  reasons : Option (List String)
  analysis : Option String
deriving DecidableEq, Repr

/-- The shape validation of aiService.ts lines 385-392: signal must be one of
BUY, SELL, HOLD; strength must be a number; reasons must be an array. -/
def validSignalResp (r : SignalResp) : Bool :=
  (match r.signal with
   | some s => decide (s = "BUY" ∨ s = "SELL" ∨ s = "HOLD")
   | none => false)
  && r.strength.isSome && r.reasons.isSome

structure SignalEnv where
  now : Nat
  provider : Except String SignalResp
  storeOk : Bool

/-- AIService.getTradingSignal (src/services/ai/aiService.ts lines 325-443):
uppercase the symbol; a fresh cached signal is returned (analysis only when
requested); otherwise the provider response is shape-validated — a violation
throws and nothing is persisted; on success the result is returned and the
cache write failure swallowed. -/
def getTradingSignalA (env : SignalEnv) (store : List SignalRecord)
    (tokenSymbol : String) (includeAnalysis : Bool) :
    Except String SignalResultA × List SignalRecord × Bool :=
  let sym := upStr tokenSymbol
  let cacheHit : Option SignalRecord :=
    match getLatestTradeSignal store sym with
    | some c => if env.now - c.created_at < SIGNAL_CACHE_DURATION then some c else none
    | none => none
  match cacheHit with
  | some c =>
    (.ok { token := sym, signal := c.signal, strength := c.strength,
           reasons := c.reasons,
           analysis := if includeAnalysis then c.analysis else none,
           timestamp := c.created_at }, store, false)
  | none =>
    match env.provider with
    | .error e =>
      (.error ("Failed to get trading signal for " ++ sym ++ ": " ++ e), store, true)
    | .ok r =>
      if validSignalResp r then
        let result : SignalResultA :=
          { token := sym, signal := r.signal.getD "", strength := r.strength.getD 0,
            reasons := r.reasons.getD [],
            analysis := if includeAnalysis then r.analysis else none,
            timestamp := env.now }
        let newStore :=
          if env.storeOk then
            store ++ [{ token_symbol := sym, signal := result.signal,
                        strength := result.strength, reasons := result.reasons,
                        analysis := result.analysis, created_at := env.now }]
          else store
        (.ok result, newStore, true)
      else
        (.error ("Failed to get trading signal for " ++ sym ++
                 ": Invalid response structure from trading signal model"), store, true)

/-! ## aiService, legacy variant (src/unnamed/part_006)

The legacy service differs from src/services/ai/aiService.ts in exactly the
ways the theorems below exercise: the symbol is NOT uppercased; the
cache-write of getSentimentAnalysis sits inside the provider try block, so
its failure fails the request; getTradingSignal has no cache and passes the
provider payload through without shape validation. -/

/-- Raw sentiment model response of the legacy variant: score is some value
iff the field is numeric, sources is some list iff the field is an array. -/
structure SentResp where
  score : Option Rat
  sources : Option (List String)
deriving DecidableEq, Repr

structure SentimentEnv6 where
  now : Nat
  provider : Except String SentResp
  storeOk : Bool

/-- getSentimentAnalysis (src/unnamed/part_006 lines 25-143): cache check as
in the current variant but on the raw symbol; any provider error, shape
violation, or store-write failure inside the inner try surfaces as the same
user-facing error. The Bool reports whether the provider was invoked. -/
def getSentimentAnalysis6 (env : SentimentEnv6) (store : List SentimentRecord)
    (tokenSymbol timeframe : String) (forceRefresh : Bool) :
    Except String SentimentResult × List SentimentRecord × Bool :=
  let cacheHit : Option SentimentRecord :=
    if forceRefresh then none
    else match getLatestSentiment store tokenSymbol timeframe with
      | some c => if env.now - c.created_at < SENTIMENT_CACHE_DURATION then some c else none
      | none => none
  match cacheHit with
  | some c =>
    (.ok { score := c.sentiment_score, sources := c.sources, cached := true,
           timestamp := c.created_at }, store, false)
  | none =>
    match env.provider with
    | .error _ =>
      (.error "Failed to fetch sentiment analysis from external service", store, true)
    | .ok r =>
      match r.score, r.sources with
      | some score, some sources =>
        if env.storeOk then
          (.ok { score := score, sources := sources, cached := false,
                 timestamp := env.now },
           store ++ [{ token_symbol := tokenSymbol, timeframe := timeframe,
                       sentiment_score := score, sources := sources,
                       created_at := env.now }], true)
        else
          (.error "Failed to fetch sentiment analysis from external service", store, true)
      | _, _ =>
        (.error "Failed to fetch sentiment analysis from external service", store, true)

/-- Trading-signal result of the legacy variant: the payload fields are
passed through raw from the provider (src/unnamed/part_006 lines 276-283),
so signal and strength may be absent and carry no validated shape. -/
structure SignalResult6 where
  token : String
  signal : Option String
  strength : Option Rat
  reasons : List String
  analysis : Option String
deriving DecidableEq, Repr

/-- getTradingSignal (src/unnamed/part_006 lines 245-291): no cache, no store
write, no shape validation; reasons defaults to the empty array and analysis
to null, while signal and strength are returned exactly as received. The
includeAnalysis flag is only forwarded to the provider request, which the
provider argument subsumes. -/
def getTradingSignal6 (provider : Except String SignalResp) (tokenSymbol : String)
    (_includeAnalysis : Bool) : Except String SignalResult6 :=
  match provider with
  | .error e => .error e
  | .ok r =>
    .ok { token := tokenSymbol, signal := r.signal, strength := r.strength,
          reasons := r.reasons.getD [], analysis := r.analysis }

/-- The recommendation expression of src/unnamed/part_006 line 324,
signal?.signal || HOLD under JS truthiness: a null slot, an absent signal
field, or an empty-string signal all fall back to HOLD. -/
def jsRecommend (sigOpt : Option SignalResult6) : String :=
  match sigOpt with
  | none => "HOLD"
  | some s =>
    match s.signal with
    | none => "HOLD"
    | some str => if str = "" then "HOLD" else str

structure Comprehensive6 where
  token : String
  sentiment : SentimentResult
  prediction : Option PredictionResult
  signal : Option SignalResult6
  recommendation : String
deriving DecidableEq, Repr

/-- getComprehensiveAnalysis (src/unnamed/part_006 lines 297-333): the three
component resolutions run concurrently; the prediction and signal promises
carry an individual catch to null, the sentiment promise does not, so the
join fails exactly when sentiment fails. Arguments are the outcomes of the
three component calls. -/
def getComprehensiveAnalysis6 (tokenSymbol : String)
    (sentiment : Except String SentimentResult)
    (prediction : Except String PredictionResult)
    (signal : Except String SignalResult6) : Except String Comprehensive6 :=
  match sentiment with
  | .error e => .error e
  | .ok s =>
    let sigOpt := jsCatchNull signal
    .ok { token := tokenSymbol, sentiment := s,
          prediction := jsCatchNull prediction, signal := sigOpt,
          recommendation := jsRecommend sigOpt }

/-- Decidable equality of Except outcomes, used to evaluate the embedded
functions at concrete inputs. -/
instance {a b : Type} [DecidableEq a] [DecidableEq b] : DecidableEq (Except a b) :=
  fun x y =>
    match x, y with
    | .ok u, .ok v => if h : u = v then isTrue (by rw [h]) else isFalse (by simp [h])
    | .error u, .error v => if h : u = v then isTrue (by rw [h]) else isFalse (by simp [h])
    | .ok _, .error _ => isFalse (by simp)
    | .error _, .ok _ => isFalse (by simp)

/-! ## Theorems -/

/-- C1: against the claim (and the spec state machine), when the chain call
throws, executeTrade does not transition the PENDING record it created to
FAILED: evaluated at a concrete failing trade, the PENDING record (id 0)
is still PENDING after executeTrade returns, and the failure is recorded as
a NEW record (id 1); the claim requires that no record created by the call
remain PENDING. -/
theorem executeTrade_chain_failure_leaves_pending_record :
    executeTrade
      { recordOk := true, chainResult := .error "chain call failed",
        updateOk := true, failRecordOk := true }
      { userId := 7, blockchain := "BSC", tokenSymbol := "BTC",
        tokenAddress := "0xT", amount := 1, tradeType := "BUY",
        walletAddress := "0xW", privateKey := "pk" } [] =
      (.error "chain call failed",
       [{ id := 0, user_id := 7, token_symbol := "BTC", token_address := "0xT",
          blockchain := "BSC", amount := 1, price := 0, trade_type := "BUY",
          status := .PENDING, tx_hash := none, error_message := none },
        { id := 1, user_id := 7, token_symbol := "BTC", token_address := "0xT",
          blockchain := "BSC", amount := 1, price := 0, trade_type := "BUY",
          status := .FAILED, tx_hash := none,
          error_message := some "chain call failed" }]) ∧
    ((executeTrade
      { recordOk := true, chainResult := .error "chain call failed",
        updateOk := true, failRecordOk := true }
      { userId := 7, blockchain := "BSC", tokenSymbol := "BTC",
        tokenAddress := "0xT", amount := 1, tradeType := "BUY",
        walletAddress := "0xW", privateKey := "pk" } []).2.map
        (fun r => r.status)) = [.PENDING, .FAILED] := by
  constructor
  · rfl
  · rfl

/-- C7 (counterexample): the claim says the direction token AUTO is accepted
(with default amount 0.01 when the amount is omitted); parseTradingCommand of
src/unnamed/part_004 rejects it. -/
theorem parseTradingCommand_rejects_AUTO_token :
    parseTradingCommand "/trade BTC AUTO" =
      .error "Trade direction must be either BUY or SELL" := by
  decide

/-- C7 (amended): parseTradingCommand accepts a command whose direction token
uppercases to BUY or SELL, and rejects by throwing, before any TradeRecord is
created or other side effect occurs, every command with fewer than three
space-separated parts or with any other direction token (AUTO included); when
the amount part is omitted the parsed amount is 0.01, and when present it
must parse to a positive number. -/
theorem parseTradingCommand_grammar (messageText : String) :
    ((splitOnSpaceJs messageText).length < 3 →
      ∃ e, parseTradingCommand messageText = .error e) ∧
    (upStr ((splitOnSpaceJs messageText).getD 2 "") ≠ "BUY" →
      upStr ((splitOnSpaceJs messageText).getD 2 "") ≠ "SELL" →
      ∃ e, parseTradingCommand messageText = .error e) ∧
    (∀ cmd, parseTradingCommand messageText = .ok cmd →
      (cmd.direction = "BUY" ∨ cmd.direction = "SELL") ∧
      cmd.symbol = upStr ((splitOnSpaceJs messageText).getD 1 "") ∧
      0 < cmd.amount ∧
      ((splitOnSpaceJs messageText).length = 3 → cmd.amount = (1 : Rat) / 100) ∧
      (4 ≤ (splitOnSpaceJs messageText).length →
        parseFloatJs ((splitOnSpaceJs messageText).getD 3 "") = some cmd.amount)) ∧
    (∀ env u store e, parseTradingCommand messageText = .error e →
      (handleTradeCommand env messageText u store).1.success = false ∧
      (handleTradeCommand env messageText u store).2.1 = store ∧
      (handleTradeCommand env messageText u store).2.2 = false) := by
  refine ⟨?_, ?_, ?_, ?_⟩
  · intro h3
    exact ⟨"Invalid trade command. Usage: /trade [symbol] [BUY|SELL] [amount]", by
      dsimp only [parseTradingCommand]; rw [if_pos h3]⟩
  · intro hb hs
    by_cases h3 : (splitOnSpaceJs messageText).length < 3
    · exact ⟨"Invalid trade command. Usage: /trade [symbol] [BUY|SELL] [amount]", by
        dsimp only [parseTradingCommand]; rw [if_pos h3]⟩
    · exact ⟨"Trade direction must be either BUY or SELL", by
        dsimp only [parseTradingCommand]; rw [if_neg h3, if_pos ⟨hb, hs⟩]⟩
  · intro cmd hcmd
    dsimp only [parseTradingCommand] at hcmd
    by_cases h3 : (splitOnSpaceJs messageText).length < 3
    · rw [if_pos h3] at hcmd; exact absurd hcmd (by simp)
    · rw [if_neg h3] at hcmd
      by_cases hd : upStr ((splitOnSpaceJs messageText).getD 2 "") ≠ "BUY" ∧
          upStr ((splitOnSpaceJs messageText).getD 2 "") ≠ "SELL"
      · rw [if_pos hd] at hcmd; exact absurd hcmd (by simp)
      · rw [if_neg hd] at hcmd
        have hdir : upStr ((splitOnSpaceJs messageText).getD 2 "") = "BUY" ∨
            upStr ((splitOnSpaceJs messageText).getD 2 "") = "SELL" := by
          rcases not_and_or.mp hd with h | h
          · exact .inl (not_not.mp h)
          · exact .inr (not_not.mp h)
        by_cases h4 : 4 ≤ (splitOnSpaceJs messageText).length
        · rw [if_pos h4] at hcmd
          cases hparse : parseFloatJs ((splitOnSpaceJs messageText).getD 3 "") with
          | none => rw [hparse] at hcmd; exact absurd hcmd (by simp)
          | some a =>
            rw [hparse] at hcmd
            dsimp only at hcmd
            by_cases hpos : a ≤ 0
            · rw [if_pos hpos] at hcmd; exact absurd hcmd (by simp)
            · rw [if_neg hpos] at hcmd
              injection hcmd with h
              subst h
              exact ⟨hdir, rfl, lt_of_not_le hpos,
                fun h3eq => absurd h3eq (by omega), fun _ => rfl⟩
        · rw [if_neg h4] at hcmd
          injection hcmd with h
          subst h
          exact ⟨hdir, rfl, by norm_num, fun _ => rfl, fun h => absurd h h4⟩
  · intro env u store e he
    simp [handleTradeCommand, he]

/-- C7 (amended, witness): the grammar characterization evaluated on the
concrete accepted command /trade BTC BUY 2. -/
theorem parseTradingCommand_grammar_witness :
    (({ symbol := "BTC", direction := "BUY", amount := 2 } : TradeCmd).direction = "BUY" ∨
     ({ symbol := "BTC", direction := "BUY", amount := 2 } : TradeCmd).direction = "SELL") ∧
    ({ symbol := "BTC", direction := "BUY", amount := 2 } : TradeCmd).symbol =
      upStr ((splitOnSpaceJs "/trade BTC BUY 2").getD 1 "") ∧
    (0 : Rat) < ({ symbol := "BTC", direction := "BUY", amount := 2 } : TradeCmd).amount ∧
    ((splitOnSpaceJs "/trade BTC BUY 2").length = 3 →
      ({ symbol := "BTC", direction := "BUY", amount := 2 } : TradeCmd).amount = (1 : Rat) / 100) ∧
    (4 ≤ (splitOnSpaceJs "/trade BTC BUY 2").length →
      parseFloatJs ((splitOnSpaceJs "/trade BTC BUY 2").getD 3 "") =
        some ({ symbol := "BTC", direction := "BUY", amount := 2 } : TradeCmd).amount) :=
  (parseTradingCommand_grammar "/trade BTC BUY 2").2.2.1
    { symbol := "BTC", direction := "BUY", amount := 2 } (by decide)

/-- C8: for every trade command parsed to the AUTO direction, when the signal
component resolves to HOLD, handleTradeCommand (AUTO-capable version of
src/tests/huggingface-test.ts) returns a declined outcome with an
explanatory message, the trades store is untouched and the execution path is
never invoked. -/
theorem handleTradeCommandAuto_hold_declines
    (env : AutoEnv) (messageText : String) (u : UserData)
    (store : List TradeRecord) (cmd : TradeCmd)
    (hparse : parseTradingCommandAuto messageText = .ok cmd)
    (hauto : cmd.direction = "AUTO")
    (hsig : env.signal = .ok "HOLD") :
    handleTradeCommandAuto env messageText u store =
      ({ success := false,
         message := "🤖 AI suggests to *HOLD* " ++ cmd.symbol ++ ". No trade executed.",
         txHash := none, price := none }, store, false) := by
  simp [handleTradeCommandAuto, hparse, hauto, hsig]

/-- C8 (witness): the concrete AUTO command /trade BTC AUTO 1 with a HOLD
signal is declined without touching the store. -/
theorem handleTradeCommandAuto_hold_declines_witness :
    handleTradeCommandAuto
      { signal := .ok "HOLD",
        sim := { priceResult := .ok 5, txRand := "ab", tokenRand := "cd", recordOk := true } }
      "/trade BTC AUTO 1" { userId := 7, walletAddress := "0xW", blockchain := "BSC" } [] =
      ({ success := false,
         message := "🤖 AI suggests to *HOLD* " ++ "BTC" ++ ". No trade executed.",
         txHash := none, price := none }, [], false) :=
  handleTradeCommandAuto_hold_declines
    { signal := .ok "HOLD",
      sim := { priceResult := .ok 5, txRand := "ab", tokenRand := "cd", recordOk := true } }
    "/trade BTC AUTO 1" { userId := 7, walletAddress := "0xW", blockchain := "BSC" } []
    { symbol := "BTC", direction := "AUTO", amount := 1 } (by decide) rfl rfl

/-- C10: simulateTrade is total: on a successful price fetch it returns
status COMPLETED with a non-empty transaction hash and the fetched price,
independently of whether the store write succeeds; when the price fetch
throws it returns status FAILED with empty hash, price 0 and the error
message, leaving the store untouched. -/
theorem simulateTrade_never_throws (env : SimEnv) (td : SimTradeData)
    (store : List TradeRecord) :
    (∀ p, env.priceResult = .ok p →
      (simulateTrade env td store).1 =
        { txHash := "0x" ++ env.txRand, price := p, status := .COMPLETED,
          error := none } ∧
      (simulateTrade env td store).1.txHash ≠ "") ∧
    (∀ e, env.priceResult = .error e →
      simulateTrade env td store =
        ({ txHash := "", price := 0, status := .FAILED, error := some e }, store)) := by
  constructor
  · intro p hp
    refine ⟨by simp [simulateTrade, hp], ?_⟩
    simp only [simulateTrade, hp]
    intro h
    have hlen := congrArg String.length h
    rw [String.length_append] at hlen
    have h2 : ("0x" : String).length = 2 := rfl
    have h0 : ("" : String).length = 0 := rfl
    rw [h2, h0] at hlen
    omega
  · intro e he
    simp [simulateTrade, he]

/-- C10 (witness): simulateTrade evaluated with a concrete successful price
fetch whose store write fails, and with a concrete failing price fetch. -/
theorem simulateTrade_never_throws_witness :
    ((simulateTrade { priceResult := .ok 5, txRand := "ab", tokenRand := "cd", recordOk := false }
        { symbol := "BTC", direction := "BUY", amount := 1, userId := 7,
          walletAddress := "0xW", blockchain := "BSC" } []).1 =
      { txHash := "0x" ++ "ab", price := 5, status := .COMPLETED, error := none }) ∧
    (simulateTrade
        { priceResult := .error "Failed to get price for BTC", txRand := "ab",
          tokenRand := "cd", recordOk := true }
        { symbol := "BTC", direction := "BUY", amount := 1, userId := 7,
          walletAddress := "0xW", blockchain := "BSC" } [] =
      ({ txHash := "", price := 0, status := .FAILED,
         error := some "Failed to get price for BTC" }, [])) :=
  ⟨((simulateTrade_never_throws
      { priceResult := .ok 5, txRand := "ab", tokenRand := "cd", recordOk := false }
      { symbol := "BTC", direction := "BUY", amount := 1, userId := 7,
        walletAddress := "0xW", blockchain := "BSC" } []).1 5 rfl).1,
   (simulateTrade_never_throws
      { priceResult := .error "Failed to get price for BTC", txRand := "ab",
          tokenRand := "cd", recordOk := true }
      { symbol := "BTC", direction := "BUY", amount := 1, userId := 7,
        walletAddress := "0xW", blockchain := "BSC" } []).2
      "Failed to get price for BTC" rfl⟩

/-- C2: cache-aside freshness of the sentiment resolver (the per-category
instantiation cited by the claim, TTL 3600000 ms): without forceRefresh, a
latest matching record strictly younger than the TTL is served from the cache
with cached true and the provider is never invoked; with no matching record,
or one at least TTL old, the provider is invoked and its payload returned
with cached false; hence a record created at T is served from cache at every
time before T + TTL and recomputation is triggered at every time after
T + TTL. -/
theorem getSentimentAnalysis_cache_freshness (env : SentimentEnv)
    (store : List SentimentRecord) (tokenSymbol timeframe : String) :
    (∀ c, getLatestSentiment store (upStr tokenSymbol) timeframe = some c →
      env.now - c.created_at < SENTIMENT_CACHE_DURATION →
      getSentimentAnalysis env store tokenSymbol timeframe false =
        (.ok { score := c.sentiment_score, sources := c.sources, cached := true,
               timestamp := c.created_at }, store, false)) ∧
    (getLatestSentiment store (upStr tokenSymbol) timeframe = none →
      ∀ p srcs, env.provider = .ok (p, srcs) →
      (getSentimentAnalysis env store tokenSymbol timeframe false).1 =
        .ok { score := p, sources := srcs, cached := false, timestamp := env.now } ∧
      (getSentimentAnalysis env store tokenSymbol timeframe false).2.2 = true) ∧
    (∀ c, getLatestSentiment store (upStr tokenSymbol) timeframe = some c →
      SENTIMENT_CACHE_DURATION ≤ env.now - c.created_at →
      ∀ p srcs, env.provider = .ok (p, srcs) →
      (getSentimentAnalysis env store tokenSymbol timeframe false).1 =
        .ok { score := p, sources := srcs, cached := false, timestamp := env.now } ∧
      (getSentimentAnalysis env store tokenSymbol timeframe false).2.2 = true) ∧
    (∀ c, getLatestSentiment store (upStr tokenSymbol) timeframe = some c →
      env.now < c.created_at + SENTIMENT_CACHE_DURATION →
      getSentimentAnalysis env store tokenSymbol timeframe false =
        (.ok { score := c.sentiment_score, sources := c.sources, cached := true,
               timestamp := c.created_at }, store, false)) ∧
    (∀ c, getLatestSentiment store (upStr tokenSymbol) timeframe = some c →
      c.created_at + SENTIMENT_CACHE_DURATION < env.now →
      (getSentimentAnalysis env store tokenSymbol timeframe false).2.2 = true) := by
  refine ⟨?_, ?_, ?_, ?_, ?_⟩
  · intro c hc hage
    simp [getSentimentAnalysis, hc, hage]
  · intro hc p srcs hp
    constructor <;> simp [getSentimentAnalysis, hc, hp]
  · intro c hc hage p srcs hp
    have hnot : ¬(env.now - c.created_at < SENTIMENT_CACHE_DURATION) := by omega
    constructor <;> simp [getSentimentAnalysis, hc, hnot, hp]
  · intro c hc hage
    have hT : SENTIMENT_CACHE_DURATION = 3600000 := rfl
    have hlt : env.now - c.created_at < SENTIMENT_CACHE_DURATION := by omega
    simp [getSentimentAnalysis, hc, hlt]
  · intro c hc hage
    have hnot : ¬(env.now - c.created_at < SENTIMENT_CACHE_DURATION) := by omega
    cases hp : env.provider with
    | error e => simp [getSentimentAnalysis, hc, hnot, hp]
    | ok v =>
      obtain ⟨p, srcs⟩ := v
      simp [getSentimentAnalysis, hc, hnot, hp]

/-- C2 (witness): a record created at 1000 is served from cache at 2000 with
cached true and no provider call. -/
theorem getSentimentAnalysis_cache_freshness_witness :
    getSentimentAnalysis
      { now := 2000, provider := .ok (7, ["y"]), storeOk := true }
      [{ token_symbol := "BTC", timeframe := "24h", sentiment_score := 42,
         sources := ["x"], created_at := 1000 }] "BTC" "24h" false =
      (.ok { score := 42, sources := ["x"], cached := true, timestamp := 1000 },
       [{ token_symbol := "BTC", timeframe := "24h", sentiment_score := 42,
          sources := ["x"], created_at := 1000 }], false) :=
  (getSentimentAnalysis_cache_freshness
    { now := 2000, provider := .ok (7, ["y"]), storeOk := true }
    [{ token_symbol := "BTC", timeframe := "24h", sentiment_score := 42,
       sources := ["x"], created_at := 1000 }] "BTC" "24h").1
    { token_symbol := "BTC", timeframe := "24h", sentiment_score := 42,
      sources := ["x"], created_at := 1000 } (by decide) (by decide)

/-- C3: the comprehensive fan-out of src/unnamed/part_006 fails as a whole
exactly when the sentiment resolution fails, while a prediction or signal
failure is caught individually, nulls that slot, and the call still succeeds
with the sentiment slot populated (recommendation defaulting to HOLD when the
signal slot is null). -/
theorem getComprehensiveAnalysis6_partial_failure_tolerance
    (sym : String) (e ep es : String) (sv : SentimentResult)
    (p : Except String PredictionResult) (sig : Except String SignalResult6) :
    getComprehensiveAnalysis6 sym (.error e) p sig = .error e ∧
    (∃ c, getComprehensiveAnalysis6 sym (.ok sv) (.error ep) sig = .ok c ∧
      c.sentiment = sv ∧ c.prediction = none ∧ c.signal = jsCatchNull sig) ∧
    (∃ c, getComprehensiveAnalysis6 sym (.ok sv) p (.error es) = .ok c ∧
      c.sentiment = sv ∧ c.signal = none ∧ c.prediction = jsCatchNull p ∧
      c.recommendation = "HOLD") :=
  ⟨rfl, ⟨_, rfl, rfl, rfl, rfl⟩, ⟨_, rfl, rfl, rfl, rfl, rfl⟩⟩

/-- C4: in a successful comprehensive analysis the recommendation equals the
direction of the signal slot whenever that slot is non-null (and its signal
field holds a direction, which under JS truthiness means a non-empty string),
and equals HOLD whenever the slot is null. -/
theorem getComprehensiveAnalysis6_recommendation_from_signal
    (sym : String) (sv : SentimentResult) (p : Except String PredictionResult)
    (sig : Except String SignalResult6) (c : Comprehensive6)
    (hc : getComprehensiveAnalysis6 sym (.ok sv) p sig = .ok c) :
    (∀ s d, c.signal = some s → s.signal = some d → d ≠ "" →
      c.recommendation = d) ∧
    (c.signal = none → c.recommendation = "HOLD") := by
  have hrec : c.recommendation = jsRecommend c.signal := by
    dsimp only [getComprehensiveAnalysis6] at hc
    injection hc with h
    subst h
    rfl
  constructor
  · intro s d hs hd hne
    rw [hrec, hs]
    simp [jsRecommend, hd, hne]
  · intro hs
    rw [hrec, hs]
    rfl

/-- C4 (witness): a concrete comprehensive analysis with a BUY signal slot
recommends BUY. -/
theorem getComprehensiveAnalysis6_recommendation_from_signal_witness :
    ({ token := "BTC",
       sentiment := { score := 1, sources := [], cached := false, timestamp := 0 },
       prediction := none,
       signal := some { token := "BTC", signal := some "BUY", strength := some 1,
                        reasons := [], analysis := none },
       recommendation := "BUY" } : Comprehensive6).recommendation = "BUY" :=
  (getComprehensiveAnalysis6_recommendation_from_signal "BTC"
    { score := 1, sources := [], cached := false, timestamp := 0 }
    (.error "prediction failed")
    (.ok { token := "BTC", signal := some "BUY", strength := some 1,
           reasons := [], analysis := none }) _ rfl).1
    { token := "BTC", signal := some "BUY", strength := some 1,
      reasons := [], analysis := none } "BUY" rfl rfl (by decide)

/-- C5 (counterexample): the legacy trading-signal resolution of
src/unnamed/part_006 returns a shape-violating provider response (signal FOO,
strength missing, reasons missing) to the caller as a success, with reasons
silently defaulted to the empty array, where the claim requires a hard
failure. -/
theorem getTradingSignal6_passes_malformed_response :
    validSignalResp
      { signal := some "FOO", strength := none, reasons := none, analysis := none } =
        false ∧
    getTradingSignal6
      (.ok { signal := some "FOO", strength := none, reasons := none, analysis := none })
      "BTC" false =
      .ok { token := "BTC", signal := some "FOO", strength := none,
            reasons := [], analysis := none } := by
  exact ⟨by decide, rfl⟩

/-- C5 (amended): in the current aiService (src/services/ai/aiService.ts),
when the cache is stale or empty and the provider responds with a payload
lacking the required shape, getTradingSignal fails with an error and the
malformed payload is neither returned to the caller nor persisted to the
cache. -/
theorem getTradingSignalA_rejects_malformed_response (env : SignalEnv)
    (store : List SignalRecord) (tokenSymbol : String) (includeAnalysis : Bool)
    (r : SignalResp)
    (hmiss : ∀ c, getLatestTradeSignal store (upStr tokenSymbol) = some c →
      SIGNAL_CACHE_DURATION ≤ env.now - c.created_at)
    (hr : env.provider = .ok r) (hbad : validSignalResp r = false) :
    getTradingSignalA env store tokenSymbol includeAnalysis =
      (.error ("Failed to get trading signal for " ++ upStr tokenSymbol ++
               ": Invalid response structure from trading signal model"),
       store, true) := by
  cases hc : getLatestTradeSignal store (upStr tokenSymbol) with
  | none => simp [getTradingSignalA, hc, hr, hbad]
  | some c =>
    have hnot : ¬(env.now - c.created_at < SIGNAL_CACHE_DURATION) := by
      have := hmiss c hc
      omega
    simp [getTradingSignalA, hc, hnot, hr, hbad]

/-- C5 (amended, witness): a concrete malformed response against an empty
cache is rejected without persisting anything. -/
theorem getTradingSignalA_rejects_malformed_response_witness :
    getTradingSignalA
      { now := 0,
        provider := .ok { signal := some "FOO", strength := none, reasons := none,
                          analysis := none },
        storeOk := true } [] "BTC" false =
      (.error ("Failed to get trading signal for " ++ upStr "BTC" ++
               ": Invalid response structure from trading signal model"),
       [], true) :=
  getTradingSignalA_rejects_malformed_response
    { now := 0,
      provider := .ok { signal := some "FOO", strength := none, reasons := none,
                        analysis := none },
      storeOk := true } [] "BTC" false
    { signal := some "FOO", strength := none, reasons := none, analysis := none }
    (fun c hc => by simp [getLatestTradeSignal, latestBy] at hc) rfl (by decide)

/-- C6 (counterexample): in the legacy sentiment path of src/unnamed/part_006
the store write sits inside the provider try block, so at a concrete input
where the provider computation succeeds and only the store write fails, the
whole request fails instead of returning the computed payload. -/
theorem getSentimentAnalysis6_store_failure_fails_request :
    getSentimentAnalysis6
      { now := 0, provider := .ok { score := some 42, sources := some ["x"] },
        storeOk := false } [] "BTC" "24h" false =
      (.error "Failed to fetch sentiment analysis from external service", [], true) := by
  decide

/-- C6 (amended): in the current aiService (src/services/ai/aiService.ts),
for each of the three read paths, when the cache misses and the computation
succeeds, a failing store write is swallowed: the freshly computed payload is
still returned, the store is unchanged, and the provider-invoked flag is
true. -/
theorem store_write_failure_swallowed_current
    (sym tf : String) (includeAnalysis : Bool)
    (envS : SentimentEnv) (storeS : List SentimentRecord) (p : Rat) (srcs : List String)
    (envP : PredictionEnv) (storeP : List PredictionRecord) (cp pp pc cf : Rat)
    (envG : SignalEnv) (storeG : List SignalRecord) (rs : SignalResp) :
    (envS.storeOk = false →
      getLatestSentiment storeS (upStr sym) tf = none →
      envS.provider = .ok (p, srcs) →
      getSentimentAnalysis envS storeS sym tf false =
        (.ok { score := p, sources := srcs, cached := false, timestamp := envS.now },
         storeS, true)) ∧
    (envP.storeOk = false →
      getLatestPrediction storeP (upStr sym) tf = none →
      envP.provider = .ok { currentPrice := some cp, predictedPrice := some pp,
                            percentageChange := some pc, confidence := some cf } →
      getPricePrediction envP storeP sym tf =
        (.ok { currentPrice := cp, predictedPrice := pp, percentageChange := pc,
               confidence := cf, timestamp := envP.now }, storeP, true)) ∧
    (envG.storeOk = false →
      getLatestTradeSignal storeG (upStr sym) = none →
      envG.provider = .ok rs →
      validSignalResp rs = true →
      getTradingSignalA envG storeG sym includeAnalysis =
        (.ok { token := upStr sym, signal := rs.signal.getD "",
               strength := rs.strength.getD 0, reasons := rs.reasons.getD [],
               analysis := if includeAnalysis then rs.analysis else none,
               timestamp := envG.now }, storeG, true)) := by
  refine ⟨?_, ?_, ?_⟩
  · intro hw hc hp
    simp [getSentimentAnalysis, hc, hp, hw]
  · intro hw hc hp
    simp [getPricePrediction, hc, hp, hw]
  · intro hw hc hp hv
    simp [getTradingSignalA, hc, hp, hv, hw]

/-- C6 (amended, witness): the three read paths evaluated at concrete inputs
with a failing store write still return the computed payloads. -/
theorem store_write_failure_swallowed_current_witness :
    getSentimentAnalysis { now := 9, provider := .ok (7, ["y"]), storeOk := false }
      [] "BTC" "24h" false =
      (.ok { score := 7, sources := ["y"], cached := false, timestamp := 9 }, [], true) ∧
    getPricePrediction
      { now := 9,
        provider := .ok { currentPrice := some 1, predictedPrice := some 2,
                          percentageChange := some 3, confidence := some 4 },
        storeOk := false } [] "BTC" "24h" =
      (.ok { currentPrice := 1, predictedPrice := 2, percentageChange := 3,
             confidence := 4, timestamp := 9 }, [], true) ∧
    getTradingSignalA
      { now := 9,
        provider := .ok { signal := some "BUY", strength := some 1,
                          reasons := some ["r"], analysis := some "a" },
        storeOk := false } [] "BTC" false =
      (.ok { token := upStr "BTC", signal := ((some "BUY").getD ""),
             strength := ((some (1 : Rat)).getD 0), reasons := ((some ["r"]).getD []),
             analysis := if false then some "a" else none,
             timestamp := 9 }, [], true) := by
  have h := store_write_failure_swallowed_current "BTC" "24h" false
    { now := 9, provider := .ok (7, ["y"]), storeOk := false } [] 7 ["y"]
    { now := 9,
      provider := .ok { currentPrice := some 1, predictedPrice := some 2,
                        percentageChange := some 3, confidence := some 4 },
      storeOk := false } [] 1 2 3 4
    { now := 9,
      provider := .ok { signal := some "BUY", strength := some 1,
                        reasons := some ["r"], analysis := some "a" },
      storeOk := false } []
    { signal := some "BUY", strength := some 1, reasons := some ["r"],
      analysis := some "a" }
  exact ⟨h.1 rfl (by decide) rfl, h.2.1 rfl (by decide) rfl,
         h.2.2 rfl (by decide) rfl (by decide)⟩

/-- C9 (counterexample): the legacy read path of src/unnamed/part_006 does
not case-normalize the symbol: with a fresh record stored under BTC,
resolving btc bypasses that cache entry and invokes the provider, while
resolving BTC is served from the cache, so the two resolutions are not
equivalent. -/
theorem getSentimentAnalysis6_not_case_normalized :
    (getSentimentAnalysis6
      { now := 1001, provider := .ok { score := some 7, sources := some ["p"] },
        storeOk := true }
      [{ token_symbol := "BTC", timeframe := "24h", sentiment_score := 42,
         sources := ["x"], created_at := 1000 }] "btc" "24h" false).2.2 = true ∧
    (getSentimentAnalysis6
      { now := 1001, provider := .ok { score := some 7, sources := some ["p"] },
        storeOk := true }
      [{ token_symbol := "BTC", timeframe := "24h", sentiment_score := 42,
         sources := ["x"], created_at := 1000 }] "BTC" "24h" false).2.2 = false ∧
    getSentimentAnalysis6
      { now := 1001, provider := .ok { score := some 7, sources := some ["p"] },
        storeOk := true }
      [{ token_symbol := "BTC", timeframe := "24h", sentiment_score := 42,
         sources := ["x"], created_at := 1000 }] "btc" "24h" false ≠
    getSentimentAnalysis6
      { now := 1001, provider := .ok { score := some 7, sources := some ["p"] },
        storeOk := true }
      [{ token_symbol := "BTC", timeframe := "24h", sentiment_score := 42,
         sources := ["x"], created_at := 1000 }] "BTC" "24h" false := by
  refine ⟨by decide, by decide, by decide⟩

/-- C9 (amended): the current aiService read path (src/services/ai/aiService.ts)
case-normalizes the symbol before the cache lookup, the provider call and the
persisted record: any two symbols with the same uppercase form (in particular
a symbol and its uppercase) resolve identically, and every record the call
adds to the store carries the uppercased symbol. -/
theorem getSentimentAnalysis_case_normalized (env : SentimentEnv)
    (store : List SentimentRecord) (timeframe : String) (forceRefresh : Bool)
    (s t : String) (hst : upStr s = upStr t) :
    getSentimentAnalysis env store s timeframe forceRefresh =
      getSentimentAnalysis env store t timeframe forceRefresh ∧
    (∀ r, r ∈ (getSentimentAnalysis env store s timeframe forceRefresh).2.1 →
      r ∈ store ∨ r.token_symbol = upStr s) := by
  have hshape :
      (getSentimentAnalysis env store s timeframe forceRefresh).2.1 = store ∨
      ∃ q srcs, (getSentimentAnalysis env store s timeframe forceRefresh).2.1 =
        store ++ [{ token_symbol := upStr s, timeframe := timeframe,
                    sentiment_score := q, sources := srcs, created_at := env.now }] := by
    dsimp only [getSentimentAnalysis]
    cases forceRefresh with
    | true =>
      cases hp : env.provider with
      | error e => left; simp [hp]
      | ok v =>
        obtain ⟨q, srcs⟩ := v
        by_cases hw : env.storeOk
        · right; exact ⟨q, srcs, by simp [hp, hw]⟩
        · left; simp [hp, hw]
    | false =>
      cases hc : getLatestSentiment store (upStr s) timeframe with
      | some c =>
        by_cases hage : env.now - c.created_at < SENTIMENT_CACHE_DURATION
        · left; simp [hc, hage]
        · cases hp : env.provider with
          | error e => left; simp [hc, hage, hp]
          | ok v =>
            obtain ⟨q, srcs⟩ := v
            by_cases hw : env.storeOk
            · right; exact ⟨q, srcs, by simp [hc, hage, hp, hw]⟩
            · left; simp [hc, hage, hp, hw]
      | none =>
        cases hp : env.provider with
        | error e => left; simp [hc, hp]
        | ok v =>
          obtain ⟨q, srcs⟩ := v
          by_cases hw : env.storeOk
          · right; exact ⟨q, srcs, by simp [hc, hp, hw]⟩
          · left; simp [hc, hp, hw]
  constructor
  · simp only [getSentimentAnalysis, hst]
  · intro r hr
    rcases hshape with h | ⟨q, srcs, h⟩
    · rw [h] at hr
      exact .inl hr
    · rw [h] at hr
      rcases List.mem_append.mp hr with hr2 | hr2
      · exact .inl hr2
      · right
        have hr3 :
            r = { token_symbol := upStr s, timeframe := timeframe,
                  sentiment_score := q, sources := srcs, created_at := env.now } :=
          List.mem_singleton.mp hr2
        rw [hr3]

/-- C9 (amended, witness): resolving btc and resolving BTC against the same
store and environment give identical results. -/
theorem getSentimentAnalysis_case_normalized_witness :
    getSentimentAnalysis
      { now := 2000, provider := .ok (7, ["y"]), storeOk := true }
      [{ token_symbol := "BTC", timeframe := "24h", sentiment_score := 42,
         sources := ["x"], created_at := 1000 }] "btc" "24h" false =
    getSentimentAnalysis
      { now := 2000, provider := .ok (7, ["y"]), storeOk := true }
      [{ token_symbol := "BTC", timeframe := "24h", sentiment_score := 42,
         sources := ["x"], created_at := 1000 }] "BTC" "24h" false :=
  (getSentimentAnalysis_case_normalized
    { now := 2000, provider := .ok (7, ["y"]), storeOk := true }
    [{ token_symbol := "BTC", timeframe := "24h", sentiment_score := 42,
       sources := ["x"], created_at := 1000 }] "24h" false "btc" "BTC" (by decide)).1

end TradeSense
